import Mathlib

/-!
Verification of the normalization & enrichment pipeline of DashCorp_Insights
(`src/dashboard.py`): `converter_para_float`, `normalizar_colunas`,
`obter_codigo_pais` and the module-level pipeline that chains them.

Python scalars are modelled by `Value`; rationals stand for Python floats
(the values manipulated here are finite decimals; the IEEE special floats
`inf`, `-inf` and `nan` get their own constructors).  Tables are
association lists from column label to column values, mirroring the pandas
DataFrames the script builds.  A Python exception is `Except.error ()`.
All rational values are produced through `mkRat` so that every definition
evaluates by kernel reduction.
-/

set_option maxRecDepth 8000

/-- A Python scalar as it appears in a dashboard table cell: a finite float
(or int) as a rational, the IEEE special floats, a string, Python `None`,
or any other object. -/
inductive Value where
  | num : ℚ → Value
  | pinf : Value
  | ninf : Value
  | nan : Value
  | str : String → Value
  | pyNone : Value
  | other : Value
deriving DecidableEq

deriving instance DecidableEq for Except

/-- Returns `true` exactly for values that satisfy `isinstance(valor, (int, float))`
in Python: finite numbers and the special floats. -/
def Value.isNumericLike : Value → Bool
  | .num _ => true
  | .pinf => true
  | .ninf => true
  | .nan => true
  | _ => false

/-- A character removed by `re.sub(r'[R$\s.]', '', valor)`: the letter `R`,
the dollar sign, a dot, or Python `\s` whitespace. -/
def removedByResub (c : Char) : Bool :=
  c = 'R' || c = '$' || c = '.' || c = ' ' || c = '\t' || c = '\n' || c = '\r' ||
    c = '\x0b' || c = '\x0c'

/-- The `re.sub(r'[R$\s.]', '', valor)` step of `converter_para_float`:
delete every occurrence of `R`, `$`, `.` and whitespace anywhere in the
string. -/
def resubClean (s : String) : String :=
  ⟨s.data.filter (fun c => !removedByResub c)⟩

/-- The full string cleanup of `converter_para_float`:
`re.sub(r'[R$\s.]', '', valor).replace(',', '.')`. -/
def limparString (s : String) : String :=
  ⟨(resubClean s).data.map (fun c => if c = ',' then '.' else c)⟩

/-- Decimal digits to a natural number. -/
def digitsToNat (cs : List Char) : ℕ :=
  cs.foldl (fun a c => a * 10 + (c.toNat - 48)) 0

/-- Split a character list at the first character satisfying `p`; `none`
when no character matches. -/
def splitOnce (p : Char → Bool) : List Char → Option (List Char × List Char)
  | [] => none
  | c :: cs =>
    if p c then some ([], cs)
    else (splitOnce p cs).map (fun q => (c :: q.1, q.2))

/-- Parse the mantissa of a Python float literal — digits with at most one
decimal point and at least one digit — into an (unreduced) numerator and
denominator. -/
def parseMantissaParts (cs : List Char) : Option (ℤ × ℕ) :=
  match splitOnce (fun c => c = '.') cs with
  | none =>
    if cs ≠ [] ∧ cs.all Char.isDigit then some ((digitsToNat cs : ℤ), 1) else none
  | some q =>
    if (q.1 ≠ [] ∨ q.2 ≠ []) ∧ q.1.all Char.isDigit ∧ q.2.all Char.isDigit then
      some (((digitsToNat q.1 * 10 ^ q.2.length + digitsToNat q.2 : ℕ) : ℤ),
        10 ^ q.2.length)
    else none

/-- Model of Python `float(s)` on finite decimal literals: optional sign,
digits with at most one decimal point, optional decimal exponent.  Inputs
outside this fragment (e.g. `"abc"`, `""`, `"inf"`, underscore separators)
are a `ValueError`, reported as `none`. -/
def pyFloatOfString (s : String) : Option ℚ :=
  let sgncs : ℤ × List Char :=
    match s.data with
    | '-' :: rest => (-1, rest)
    | '+' :: rest => (1, rest)
    | _ => (1, s.data)
  let parts : Option (ℤ × ℕ) :=
    match splitOnce (fun c => c = 'e' || c = 'E') sgncs.2 with
    | none => parseMantissaParts sgncs.2
    | some q =>
      let esgn : Bool × List Char :=
        match q.2 with
        | '-' :: rest => (true, rest)
        | '+' :: rest => (false, rest)
        | _ => (false, q.2)
      if esgn.2 ≠ [] ∧ esgn.2.all Char.isDigit then
        (parseMantissaParts q.1).map (fun p =>
          if esgn.1 then (p.1, p.2 * 10 ^ digitsToNat esgn.2)
          else (p.1 * 10 ^ digitsToNat esgn.2, p.2))
      else none
  parts.map (fun p => mkRat (sgncs.1 * p.1) p.2)

/-- Embedding of `converter_para_float` (dashboard.py lines 86-97): numeric values pass
through `float(valor)` unchanged; strings are cleaned by `limparString` and
then given to `float(...)`, whose `ValueError` on an unparseable string is
NOT caught and escapes (`Except.error`); any other object falls to the
`else` branch and yields the `np.nan` sentinel. -/
def converter_para_float (valor : Value) : Except Unit Value :=
  match valor with
  | .num q => .ok (.num q)
  | .pinf => .ok .pinf
  | .ninf => .ok .ninf
  | .nan => .ok .nan
  | .str s =>
    match pyFloatOfString (limparString s) with
    | some q => .ok (.num q)
    | none => .error ()
  | _ => .ok .nan

/-- Exact rational division, written through `mkRat` so that it evaluates
by kernel reduction; proved equal to `a / b` in `ratDiv_eq`. -/
def ratDiv (a b : ℚ) : ℚ :=
  if 0 ≤ b.num then mkRat (a.num * (b.den : ℤ)) (a.den * b.num.toNat)
  else mkRat (-(a.num * (b.den : ℤ))) (a.den * (-b.num).toNat)

/-- Exact rational subtraction through `mkRat`; proved equal to `a - b` in
`ratSub_eq`. -/
def ratSub (a b : ℚ) : ℚ :=
  mkRat (a.num * (b.den : ℤ) - b.num * (a.den : ℤ)) (a.den * b.den)

/-- A Python float used as a `pd.cut` bin edge or probe: finite, `inf` or
`-inf` (the source's bins end in `float('inf')`). -/
inductive PyNum where
  | fin : ℚ → PyNum
  | pinf : PyNum
  | ninf : PyNum
deriving DecidableEq

/-- Strict `<` on IEEE floats (no NaN involved). -/
def PyNum.ltb : PyNum → PyNum → Bool
  | .fin a, .fin b => decide (a < b)
  | .fin _, .pinf => true
  | .ninf, .fin _ => true
  | .ninf, .pinf => true
  | _, _ => false

/-- Non-strict `≤` on IEEE floats (no NaN involved). -/
def PyNum.leb : PyNum → PyNum → Bool
  | .fin a, .fin b => decide (a ≤ b)
  | _, .pinf => true
  | .ninf, _ => true
  | _, _ => false

/-- One probe of `pd.cut` with right-closed bins (the pandas default,
`right=True`): the value `v` gets label `i` when `bins[i] < v ≤ bins[i+1]`;
a value in no bin gets no label (pandas yields NaN for it). -/
def pdCutOne (v : PyNum) : List PyNum → List String → Option String
  | b0 :: b1 :: bs, l :: ls =>
    if b0.ltb v && v.leb b1 then some l else pdCutOne v (b1 :: bs) ls
  | _, _ => none

/-- The bin edges of dashboard.py line 137:
`bins = [0, 10e6, 100e6, 500e6, 1e9, float('inf')]`. -/
def porteBins : List PyNum :=
  [.fin 0, .fin 10000000, .fin 100000000, .fin 500000000, .fin 1000000000, .pinf]

/-- The labels of dashboard.py line 138. -/
def porteLabels : List String :=
  ["Micro", "Pequena", "Média", "Grande", "Corporação"]

/-- One cell of `pd.cut` on the revenue column: numeric values are probed
against `porteBins`; NaN gets no label; a non-numeric cell makes `pd.cut`
raise a `TypeError`, reported as the outer `none`. -/
def cutValue : Value → Option (Option String)
  | .num q => some (pdCutOne (.fin q) porteBins porteLabels)
  | .pinf => some (pdCutOne .pinf porteBins porteLabels)
  | .ninf => some (pdCutOne .ninf porteBins porteLabels)
  | .nan => some none
  | _ => none

/-- The cell stored in the `porte` column: the tier label, or NaN for a
value falling in no bin. -/
def cutCell (v : Value) : Option Value :=
  (cutValue v).map (fun o => match o with | some l => Value.str l | none => Value.nan)

/-- Elementwise float division of two pandas columns (`receita_anual /
numero_funcionarios`).  Division by zero follows IEEE/numpy: `a/0` is
`inf`, `-inf` or `nan` by the sign of `a`; NaN is absorbing; a `str` or
other non-numeric operand raises a `TypeError`, reported as `none`. -/
def pyDivVal (x y : Value) : Option Value :=
  match x, y with
  | .str _, _ => none
  | .other, _ => none
  | .pyNone, _ => none
  | _, .str _ => none
  | _, .other => none
  | _, .pyNone => none
  | .nan, _ => some .nan
  | _, .nan => some .nan
  | .num a, .num b =>
    some (if b = 0 then (if 0 < a then Value.pinf else if a < 0 then Value.ninf else Value.nan)
      else .num (ratDiv a b))
  | .pinf, .num b => some (if 0 ≤ b then Value.pinf else Value.ninf)
  | .ninf, .num b => some (if 0 ≤ b then Value.ninf else Value.pinf)
  | .num _, .pinf => some (.num 0)
  | .num _, .ninf => some (.num 0)
  | _, _ => some .nan

/-- Elementwise subtraction `ano_atual - ano_fundacao` for one cell
(dashboard.py line 144); non-numeric cells raise a `TypeError`. -/
def pySubVal (a : ℚ) : Value → Option Value
  | .num b => some (.num (ratSub a b))
  | .nan => some .nan
  | .pinf => some .ninf
  | .ninf => some .pinf
  | _ => none


/-- A pandas DataFrame, as the pipeline sees it: an ordered association
list of column label to column values. -/
structure Table where
  cols : List (String × List Value)
deriving DecidableEq

/-- The column labels, `df.columns`. -/
def Table.labels (t : Table) : List String := t.cols.map Prod.fst

/-- Column access `df[l]`: the first column labelled `l`, when present. -/
def Table.getCol (t : Table) (l : String) : Option (List Value) :=
  (t.cols.find? (fun c => c.1 == l)).map Prod.snd

/-- Replace the values of the first column labelled `l`. -/
def replaceCol (l : String) (vs : List Value) :
    List (String × List Value) → List (String × List Value)
  | [] => []
  | c :: cs => if c.1 == l then (l, vs) :: cs else c :: replaceCol l vs cs

/-- Column assignment `df[l] = vs`: overwrite the column when the label exists, else append a
new column on the right (the tables this pipeline builds have unique
labels). -/
def Table.setCol (t : Table) (l : String) (vs : List Value) : Table :=
  if (t.getCol l).isSome then ⟨replaceCol l vs t.cols⟩ else ⟨t.cols ++ [(l, vs)]⟩

/-- The `mapeamento` dict of dashboard.py lines 104-115: Portuguese column
labels to standardized names. -/
def mapeamento : List (String × String) :=
  [("Nome da Empresa", "nome_empresa"),
   ("Setor", "setor"),
   ("Receita Anual", "receita_anual"),
   ("Nº de Funcionários", "numero_funcionarios"),
   ("Nº Funcionários", "numero_funcionarios"),
   ("País", "pais"),
   ("Data de Fundação", "data_fundacao"),
   ("Ano de Fundação", "ano_fundacao"),
   ("Ano Fundação", "ano_fundacao"),
   ("ID", "id")]

/-- Lookup `mapeamento[l]` when `l in mapeamento`. -/
def mapLookup (l : String) : Option String :=
  (mapeamento.find? (fun p => p.1 == l)).map Prod.snd

/-- The label a column ends up with after the rename: its canonical name
when recognized, itself otherwise. -/
def applyMapeamento (l : String) : String := (mapLookup l).getD l

/-- Embedding of `colunas_para_renomear` (line 118): the sub-dict of `mapeamento`
restricted to labels present in the table. -/
def colunas_para_renomear (df : Table) : List (String × String) :=
  df.labels.filterMap (fun l => (mapLookup l).map (fun v => (l, v)))

/-- Renaming `df.rename(columns=m)`: map every label through `m`, leaving labels
outside `m` unchanged; data is untouched. -/
def renameWith (m : List (String × String)) (df : Table) : Table :=
  ⟨df.cols.map (fun c => ((((m.find? (fun p => p.1 == c.1)).map Prod.snd).getD c.1), c.2))⟩

/-- Lines 117-120: rename only when `colunas_para_renomear` is nonempty
(`if colunas_para_renomear:`); `df.rename` returns a fresh table. -/
def renameStage (df : Table) : Table :=
  if colunas_para_renomear df = [] then df else renameWith (colunas_para_renomear df) df

/-- Model of `pd.to_datetime` on one cell followed by `.dt.year`: accepts
strings shaped like an ISO date `"YYYY-..."`; any other cell is a parse
failure (the exception that the `except` on line 127 absorbs). -/
def toYear : Value → Option ℚ
  | .str s =>
    match s.data with
    | a :: b :: c :: d :: '-' :: _ =>
      if [a, b, c, d].all Char.isDigit then some ((digitsToNat [a, b, c, d] : ℕ) : ℚ)
      else none
    | _ => none
  | _ => none

/-- Lines 122-128: when `ano_fundacao` is absent and `data_fundacao`
present, try to parse the date column and extract years; a parse failure
anywhere is caught and leaves the table as it was.  (The converted
timestamp column is modelled by the original cells, since only the
extracted years are observed downstream.) -/
def anoFundacaoStage (df : Table) : Table :=
  if (df.getCol "ano_fundacao").isNone ∧ (df.getCol "data_fundacao").isSome then
    match ((df.getCol "data_fundacao").getD []).mapM toYear with
    | some years => df.setCol "ano_fundacao" (years.map Value.num)
    | none => df
  else df

/-- Lines 131-133: when both `receita_anual` and `numero_funcionarios`
exist, add `receita_por_funcionario` as their elementwise quotient; an
elementwise `TypeError` escapes the function. -/
def addReceitaPorFuncionario (df : Table) : Except Unit Table :=
  if (df.getCol "receita_anual").isSome ∧ (df.getCol "numero_funcionarios").isSome then
    match (((df.getCol "receita_anual").getD []).zip
        ((df.getCol "numero_funcionarios").getD [])).mapM (fun p => pyDivVal p.1 p.2) with
    | some c => .ok (df.setCol "receita_por_funcionario" c)
    | none => .error ()
  else .ok df

/-- Lines 136-139: when `receita_anual` exists, add the `porte` column by
`pd.cut`; a non-numeric revenue column makes `pd.cut` raise. -/
def addPorte (df : Table) : Except Unit Table :=
  if (df.getCol "receita_anual").isSome then
    match ((df.getCol "receita_anual").getD []).mapM cutCell with
    | some c => .ok (df.setCol "porte" c)
    | none => .error ()
  else .ok df

/-- Lines 142-144: when `ano_fundacao` exists, add `idade_empresa` as
`ano_atual - ano_fundacao` elementwise. -/
def addIdadeEmpresa (anoAtual : ℚ) (df : Table) : Except Unit Table :=
  if (df.getCol "ano_fundacao").isSome then
    match ((df.getCol "ano_fundacao").getD []).mapM (pySubVal anoAtual) with
    | some c => .ok (df.setCol "idade_empresa" c)
    | none => .error ()
  else .ok df

/-- Embedding of `normalizar_colunas` (lines 99-146): rename recognized labels, resolve
`ano_fundacao` from `data_fundacao`, then add the derived columns.
`anoAtual` stands for `datetime.now().year`. -/
def normalizar_colunas (anoAtual : ℚ) (df : Table) : Except Unit Table := do
  let df1 := anoFundacaoStage (renameStage df)
  let df2 ← addReceitaPorFuncionario df1
  let df3 ← addPorte df2
  addIdadeEmpresa anoAtual df3

/-- A pycountry country record, reduced to the field the script reads. -/
structure Country where
  alpha_3 : String
deriving DecidableEq

/-- Embedding of `obter_codigo_pais` (lines 149-156), parameterized by the fuzzy
matcher `pycountry.countries.search_fuzzy`, which either returns a
relevance-ordered list or raises: the first match's `alpha_3` wins, an
empty result gives `None`, and every exception (no match, non-string
input, ...) is caught and gives `None`. -/
def obter_codigo_pais (searchFuzzy : String → Except Unit (List Country)) :
    Value → Option String
  | .str s =>
    match searchFuzzy s with
    | .ok (p :: _) => some p.alpha_3
    | .ok [] => none
    | .error _ => none
  | _ => none

/-- The cell stored in `codigo_pais`: the code, or Python `None`. -/
def codigoCell (searchFuzzy : String → Except Unit (List Country)) (v : Value) : Value :=
  match obter_codigo_pais searchFuzzy v with
  | some code => .str code
  | none => .pyNone

/-- Module lines 170-171: add ISO codes when a `pais` column exists. -/
def paisStage (searchFuzzy : String → Except Unit (List Country)) (df : Table) : Table :=
  if (df.getCol "pais").isSome then
    df.setCol "codigo_pais" (((df.getCol "pais").getD []).map (codigoCell searchFuzzy))
  else df

/-- Module lines 165-167: when `receita_anual` exists, replace it by
`df['receita_anual'].apply(converter_para_float)`; a `ValueError` in the
conversion of any cell escapes. -/
def coerceStage (df : Table) : Except Unit Table :=
  if (df.getCol "receita_anual").isSome then
    match ((df.getCol "receita_anual").getD []).mapM converter_para_float with
    | .ok vs => .ok (df.setCol "receita_anual" vs)
    | .error e => .error e
  else .ok df

/-- The module-level pipeline (lines 159-171) applied to one loaded table:
`normalizar_colunas`, then revenue coercion, then country codes. -/
def pipelineModule (searchFuzzy : String → Except Unit (List Country))
    (anoAtual : ℚ) (df : Table) : Except Unit Table := do
  let a ← normalizar_colunas anoAtual df
  let b ← coerceStage a
  pure (paisStage searchFuzzy b)

/-- Modelled from the spec (§4.5): the pipeline variant in which
derived-metric computation runs after renaming AND after revenue coercion,
used to compare orders of computation. -/
def pipelineSpecOrder (searchFuzzy : String → Except Unit (List Country))
    (anoAtual : ℚ) (df : Table) : Except Unit Table := do
  let a ← coerceStage (anoFundacaoStage (renameStage df))
  let b ← addReceitaPorFuncionario a
  let c ← addPorte b
  let d ← addIdadeEmpresa anoAtual c
  pure (paisStage searchFuzzy d)

/-- Python reference semantics of a call `normalizar_colunas(df)`, seen
from the caller: when at least one column is renamed, line 120 rebinds the
local `df` to the fresh table returned by `df.rename`, and all later
column writes hit that copy, so the caller's object is untouched; when no
column needs renaming, the local `df` stays an alias of the argument and
every column write mutates the caller's table in place. -/
def inputAfterNormalizar (anoAtual : ℚ) (df : Table) : Except Unit Table :=
  if colunas_para_renomear df = [] then normalizar_colunas anoAtual df else .ok df

theorem num_eq_mul_den (r : ℚ) : (r.num : ℚ) = r * r.den := by
  have hd : ((r.den : ℚ)) ≠ 0 := by
    exact_mod_cast r.den_nz
  have h2 := Rat.num_div_den r
  rw [div_eq_iff hd] at h2
  exact h2

theorem ratDiv_eq (a b : ℚ) : ratDiv a b = a / b := by
  rcases lt_trichotomy b.num 0 with h | h | h
  · have hcast : (((-b.num).toNat : ℕ) : ℚ) = -(b.num : ℚ) := by
      exact_mod_cast Int.toNat_of_nonneg (by omega : (0:ℤ) ≤ -b.num)
    rw [ratDiv, if_neg (not_le.mpr h), Rat.mkRat_eq_div]
    push_cast
    rw [hcast]
    have hb : (b.num : ℚ) ≠ 0 := by exact_mod_cast h.ne
    have hbq : b ≠ 0 := fun hb0 => by simp [hb0] at hb
    field_simp
    rw [num_eq_mul_den a, num_eq_mul_den b]
    ring
  · have hb : b = 0 := by
      have h2 := Rat.num_div_den b
      rw [h] at h2
      simpa using h2.symm
    simp [ratDiv, h, hb, Int.toNat_zero]
  · have hcast : ((b.num.toNat : ℕ) : ℚ) = (b.num : ℚ) := by
      exact_mod_cast Int.toNat_of_nonneg h.le
    rw [ratDiv, if_pos h.le, Rat.mkRat_eq_div]
    push_cast
    rw [hcast]
    have hb : (b.num : ℚ) ≠ 0 := by exact_mod_cast h.ne'
    have hbq : b ≠ 0 := fun hb0 => by simp [hb0] at hb
    field_simp
    rw [num_eq_mul_den a, num_eq_mul_den b]
    ring

theorem ratSub_eq (a b : ℚ) : ratSub a b = a - b := by
  rw [ratSub, Rat.mkRat_eq_div]
  have hda : ((a.den : ℚ)) ≠ 0 := by exact_mod_cast a.den_nz
  have hdb : ((b.den : ℚ)) ≠ 0 := by exact_mod_cast b.den_nz
  push_cast
  field_simp
  rw [num_eq_mul_den a, num_eq_mul_den b]
  ring

/-- The source's `pd.cut` call with its bins, characterized by half-open
LOWER-exclusive, upper-inclusive intervals (the pandas `right=True`
default). -/
theorem pdCutOne_porte_spec (q : ℚ) :
    (0 < q → q ≤ 10000000 → pdCutOne (.fin q) porteBins porteLabels = some "Micro") ∧
    (10000000 < q → q ≤ 100000000 → pdCutOne (.fin q) porteBins porteLabels = some "Pequena") ∧
    (100000000 < q → q ≤ 500000000 → pdCutOne (.fin q) porteBins porteLabels = some "Média") ∧
    (500000000 < q → q ≤ 1000000000 → pdCutOne (.fin q) porteBins porteLabels = some "Grande") ∧
    (1000000000 < q → pdCutOne (.fin q) porteBins porteLabels = some "Corporação") ∧
    (q ≤ 0 → pdCutOne (.fin q) porteBins porteLabels = none) := by
  simp only [porteBins, porteLabels, pdCutOne, PyNum.ltb, PyNum.leb, Bool.and_eq_true,
    decide_eq_true_eq]
  refine ⟨fun h1 h2 => ?_, fun h1 h2 => ?_, fun h1 h2 => ?_, fun h1 h2 => ?_,
    fun h1 => ?_, fun h1 => ?_⟩
  · rw [if_pos ⟨h1, h2⟩]
  · rw [if_neg (by rintro ⟨hx, hy⟩; linarith), if_pos ⟨h1, h2⟩]
  · rw [if_neg (by rintro ⟨hx, hy⟩; linarith), if_neg (by rintro ⟨hx, hy⟩; linarith),
      if_pos ⟨h1, h2⟩]
  · rw [if_neg (by rintro ⟨hx, hy⟩; linarith), if_neg (by rintro ⟨hx, hy⟩; linarith),
      if_neg (by rintro ⟨hx, hy⟩; linarith), if_pos ⟨h1, h2⟩]
  · rw [if_neg (by rintro ⟨hx, hy⟩; linarith), if_neg (by rintro ⟨hx, hy⟩; linarith),
      if_neg (by rintro ⟨hx, hy⟩; linarith), if_neg (by rintro ⟨hx, hy⟩; linarith)]
    simp [h1]
  · rw [if_neg (by rintro ⟨hx, hy⟩; linarith), if_neg (by rintro ⟨hx, hy⟩; linarith),
      if_neg (by rintro ⟨hx, hy⟩; linarith), if_neg (by rintro ⟨hx, hy⟩; linarith)]
    rw [if_neg (by rintro ⟨hx, hy⟩; linarith)]

/-- C1, counterexample.  The claim asserts lower-INCLUSIVE bounds, with
revenue 10,000,000 in the Small tier ("Pequena"), 1,000,000,000 in the
Corporation tier ("Corporação") and 0 in the Micro tier.  `pd.cut` with
the pandas default `right=True` uses lower-EXCLUSIVE, upper-inclusive
bins, so the code puts 10,000,000 in "Micro", 1,000,000,000 in "Grande",
and gives revenue 0 no tier at all. -/
theorem claim_C1_counterexample :
    cutValue (Value.num 10000000) = some (some "Micro") ∧
    cutValue (Value.num 10000000) ≠ some (some "Pequena") ∧
    cutValue (Value.num 1000000000) = some (some "Grande") ∧
    cutValue (Value.num 1000000000) ≠ some (some "Corporação") ∧
    cutValue (Value.num 0) = some none := by decide

/-- C1, amended.  The size-tier bucketing uses half-open LOWER-exclusive,
upper-inclusive revenue bounds: (0, 10M] → Micro ("Micro"), (10M, 100M] →
Small ("Pequena"), (100M, 500M] → Medium ("Média"), (500M, 1B] → Large
("Grande"), (1B, ∞) → Corporation ("Corporação"); revenue ≤ 0 (including
0 and negatives) or missing (NaN) gets no tier. -/
theorem claim_C1_amended (q : ℚ) :
    (0 < q → q ≤ 10000000 → cutValue (Value.num q) = some (some "Micro")) ∧
    (10000000 < q → q ≤ 100000000 → cutValue (Value.num q) = some (some "Pequena")) ∧
    (100000000 < q → q ≤ 500000000 → cutValue (Value.num q) = some (some "Média")) ∧
    (500000000 < q → q ≤ 1000000000 → cutValue (Value.num q) = some (some "Grande")) ∧
    (1000000000 < q → cutValue (Value.num q) = some (some "Corporação")) ∧
    (q ≤ 0 → cutValue (Value.num q) = some none) ∧
    cutValue Value.nan = some none := by
  have h := pdCutOne_porte_spec q
  refine ⟨fun h1 h2 => ?_, fun h1 h2 => ?_, fun h1 h2 => ?_, fun h1 h2 => ?_,
    fun h1 => ?_, fun h1 => ?_, by decide⟩ <;>
    simp only [cutValue]
  · rw [h.1 h1 h2]
  · rw [h.2.1 h1 h2]
  · rw [h.2.2.1 h1 h2]
  · rw [h.2.2.2.1 h1 h2]
  · rw [h.2.2.2.2.1 h1]
  · rw [h.2.2.2.2.2 h1]

/-- Witness for C1's amended theorem at the boundary revenues the claim
names. -/
theorem claim_C1_witness :
    cutValue (Value.num 9999999) = some (some "Micro") ∧
    cutValue (Value.num 999999999) = some (some "Grande") ∧
    cutValue (Value.num (-5)) = some none :=
  ⟨(claim_C1_amended 9999999).1 (by norm_num) (by norm_num),
   (claim_C1_amended 999999999).2.2.2.1 (by norm_num) (by norm_num),
   (claim_C1_amended (-5)).2.2.2.2.2.1 (by norm_num)⟩

/-- C2, counterexample.  The claim says any cell that is neither numeric
nor a parseable-number string coerces to the missing sentinel and never
raises; but `converter_para_float("abc")` reaches `float("abc")`, whose
`ValueError` is not caught, so the exception escapes. -/
theorem claim_C2_counterexample :
    converter_para_float (Value.str "abc") = Except.error () := by decide

/-- C2, amended.  Values that are neither numeric nor strings (Python
`None` or any other object) coerce to the `np.nan` sentinel without error,
but a string whose cleaned form fails to parse as a number raises a
`ValueError`, which is fatal. -/
theorem claim_C2_amended :
    (∀ s : String, pyFloatOfString (limparString s) = none →
      converter_para_float (Value.str s) = Except.error ()) ∧
    converter_para_float Value.pyNone = Except.ok Value.nan ∧
    converter_para_float Value.other = Except.ok Value.nan := by
  refine ⟨fun s h => ?_, by decide, by decide⟩
  simp only [converter_para_float, h]

/-- Witness for C2's amended theorem at the unparseable string "abc". -/
theorem claim_C2_witness :
    converter_para_float (Value.str "abc") = Except.error () :=
  claim_C2_amended.1 "abc" (by decide)

/-- C5, confirmed.  Revenue coercion is the identity on every numeric
value (finite floats, `inf`, `-inf` and `nan` all pass through
`float(valor)` unchanged), and the currency string "R$ 1.234,56" —
currency symbol, whitespace and the thousands-separator dot stripped, the
decimal comma turned into a point — coerces to exactly 1234.56. -/
theorem claim_C5 :
    (∀ q : ℚ, converter_para_float (Value.num q) = Except.ok (Value.num q)) ∧
    converter_para_float Value.nan = Except.ok Value.nan ∧
    converter_para_float Value.pinf = Except.ok Value.pinf ∧
    converter_para_float Value.ninf = Except.ok Value.ninf ∧
    converter_para_float (Value.str "R$ 1.234,56") = Except.ok (Value.num (123456 / 100)) := by
  refine ⟨fun q => rfl, rfl, rfl, rfl, ?_⟩
  have h : converter_para_float (Value.str "R$ 1.234,56")
      = Except.ok (Value.num (mkRat 123456 100)) := by decide
  rw [h, Rat.mkRat_eq_div]
  norm_num

/-- C10, confirmed.  The regex cleanup deletes every occurrence of `R`,
`$`, `.` and whitespace anywhere in the string (not merely a currency
prefix), so a dot is always treated as a thousands separator; in
particular the dot-as-decimal string "1234.56" coerces to 123456, not
1234.56. -/
theorem claim_C10 :
    (∀ s : String, ∀ c ∈ (resubClean s).data,
      c ≠ 'R' ∧ c ≠ '$' ∧ c ≠ '.' ∧ c ≠ ' ' ∧ c ≠ '\t' ∧ c ≠ '\n' ∧ c ≠ '\r') ∧
    converter_para_float (Value.str "1234.56") = Except.ok (Value.num 123456) := by
  constructor
  · intro s c hc
    have h : c ∈ s.data ∧ (!removedByResub c) = true := List.mem_filter.mp hc
    have h2 := h.2
    simp only [removedByResub, Bool.not_eq_eq_eq_not, Bool.not_true, Bool.or_eq_false_iff,
      decide_eq_false_iff_not] at h2
    tauto
  · decide

/-- Witness for C10 at the character '1' surviving the cleanup of a
currency string. -/
theorem claim_C10_witness :
    ('1' ≠ 'R' ∧ '1' ≠ '$' ∧ '1' ≠ '.' ∧ '1' ≠ ' ' ∧ '1' ≠ '\t' ∧ '1' ≠ '\n' ∧ '1' ≠ '\r') ∧
    converter_para_float (Value.str "1234.56") = Except.ok (Value.num 123456) :=
  ⟨claim_C10.1 "R$ 1,5" '1' (by decide), claim_C10.2⟩

/-- The cell `pd.cut` stores for a finite revenue `q`. -/
def porteCell (q : ℚ) : Value :=
  match pdCutOne (.fin q) porteBins porteLabels with
  | some l => Value.str l
  | none => Value.nan

/-- A two-column table with one row: canonical revenue and employee-count
labels, used to probe the derived-metric stage. -/
def tabelaRF (a b : ℚ) : Table :=
  ⟨[("receita_anual", [Value.num a]), ("numero_funcionarios", [Value.num b])]⟩

/-- Column access through a pipeline run: `none` when the run raised or
the column is absent. -/
def colOfRun (r : Except Unit Table) (l : String) : Option (List Value) :=
  match r with
  | .ok t => t.getCol l
  | .error _ => none

theorem addReceita_tabelaRF (a b : ℚ) (v : Value)
    (hv : pyDivVal (Value.num a) (Value.num b) = some v) :
    addReceitaPorFuncionario (tabelaRF a b) =
      .ok ⟨[("receita_anual", [Value.num a]), ("numero_funcionarios", [Value.num b]),
        ("receita_por_funcionario", [v])]⟩ := by
  have hmap : ((((tabelaRF a b).getCol "receita_anual").getD []).zip
      (((tabelaRF a b).getCol "numero_funcionarios").getD [])).mapM
      (fun p => pyDivVal p.1 p.2) = some [v] := by
    show [(Value.num a, Value.num b)].mapM (fun p => pyDivVal p.1 p.2) = some [v]
    simp only [List.mapM_cons, List.mapM_nil]
    rw [hv]
    rfl
  simp only [addReceitaPorFuncionario]
  rw [if_pos ⟨rfl, rfl⟩, hmap]
  rfl

theorem normalizar_tabelaRF (a b : ℚ) (v : Value)
    (hv : pyDivVal (Value.num a) (Value.num b) = some v) :
    normalizar_colunas 2025 (tabelaRF a b) =
      .ok ⟨[("receita_anual", [Value.num a]), ("numero_funcionarios", [Value.num b]),
        ("receita_por_funcionario", [v]), ("porte", [porteCell a])]⟩ := by
  calc normalizar_colunas 2025 (tabelaRF a b)
      = addReceitaPorFuncionario (tabelaRF a b) >>=
        (fun df2 => addPorte df2 >>= addIdadeEmpresa 2025) := rfl
    _ = _ := by
        rw [addReceita_tabelaRF a b v hv]
        rfl

/-- C3, counterexample.  The claim says `receita_por_funcionario` is
absent (not computed) for a row with zero employees; the code divides
unconditionally, and float division 1000000/0 yields `inf`, so the cell is
present and infinite. -/
theorem claim_C3_counterexample :
    colOfRun (normalizar_colunas 2025 (tabelaRF 1000000 0)) "receita_por_funcionario" =
      some [Value.pinf] := by
  rw [normalizar_tabelaRF 1000000 0 Value.pinf (by decide)]
  rfl

/-- C3, amended.  When revenue and employee count are both present,
`receita_por_funcionario` is computed for EVERY row: it equals
`annual_revenue / employee_count` when the count is nonzero, and for a
zero count with positive revenue it is `inf` (IEEE division), present
rather than absent. -/
theorem claim_C3_amended (a b : ℚ) :
    (b ≠ 0 → colOfRun (normalizar_colunas 2025 (tabelaRF a b)) "receita_por_funcionario" =
      some [Value.num (a / b)]) ∧
    (b = 0 → 0 < a → colOfRun (normalizar_colunas 2025 (tabelaRF a b)) "receita_por_funcionario" =
      some [Value.pinf]) := by
  constructor
  · intro hb
    have hv : pyDivVal (Value.num a) (Value.num b) = some (Value.num (ratDiv a b)) := by
      simp only [pyDivVal, if_neg hb]
    rw [normalizar_tabelaRF a b _ hv, ratDiv_eq]
    rfl
  · intro hb ha
    subst hb
    have hv : pyDivVal (Value.num a) (Value.num 0) = some Value.pinf := by
      simp [pyDivVal, ha]
    rw [normalizar_tabelaRF a 0 _ hv]
    rfl

/-- Witness for C3's amended theorem: revenue 1,000,000 over 10 employees
gives exactly 100,000, and over 0 employees gives `inf`. -/
theorem claim_C3_witness :
    colOfRun (normalizar_colunas 2025 (tabelaRF 1000000 10)) "receita_por_funcionario" =
      some [Value.num (1000000 / 10)] ∧
    colOfRun (normalizar_colunas 2025 (tabelaRF 1000000 0)) "receita_por_funcionario" =
      some [Value.pinf] :=
  ⟨(claim_C3_amended 1000000 10).1 (by norm_num),
   (claim_C3_amended 1000000 0).2 rfl (by norm_num)⟩

theorem cpr_find_none_aux (ls : List String) (l : String) (hl : mapLookup l = none) :
    (ls.filterMap (fun x => (mapLookup x).map (fun w => (x, w)))).find?
      (fun p => p.1 == l) = none := by
  induction ls with
  | nil => rfl
  | cons x xs ih =>
    simp only [List.filterMap_cons]
    cases hx : mapLookup x with
    | none => exact ih
    | some w =>
      simp only [Option.map_some', List.find?_cons]
      have hfalse : ((x, w).1 == l) = false := by
        by_cases hxl : x = l
        · subst hxl
          rw [hx] at hl
          cases hl
        · simp [hxl]
      rw [hfalse]
      exact ih

theorem cpr_find_none (df : Table) (l : String) (hl : mapLookup l = none) :
    (colunas_para_renomear df).find? (fun p => p.1 == l) = none :=
  cpr_find_none_aux df.labels l hl

theorem cpr_find_some_aux (ls : List String) (l v : String) (hv : mapLookup l = some v) :
    l ∈ ls →
    (ls.filterMap (fun x => (mapLookup x).map (fun w => (x, w)))).find?
      (fun p => p.1 == l) = some (l, v) := by
  induction ls with
  | nil => intro hl; cases hl
  | cons x xs ih =>
    intro hl
    simp only [List.filterMap_cons]
    by_cases hxl : x = l
    · subst hxl
      rw [hv]
      simp only [Option.map_some', List.find?_cons]
      simp
    · have hl2 : l ∈ xs := by
        rcases List.mem_cons.mp hl with h | h
        · exact absurd h.symm hxl
        · exact h
      cases hx : mapLookup x with
      | none => exact ih hl2
      | some w =>
        simp only [Option.map_some', List.find?_cons]
        have hfalse : ((x, w).1 == l) = false := by simp [hxl]
        rw [hfalse]
        exact ih hl2

theorem cpr_find_some (df : Table) (l v : String) (hv : mapLookup l = some v)
    (hl : l ∈ df.labels) :
    (colunas_para_renomear df).find? (fun p => p.1 == l) = some (l, v) :=
  cpr_find_some_aux df.labels l v hv hl

/-- The rename step, characterized pointwise: every label goes through the
full `mapeamento` (recognized labels to their canonical names,
unrecognized labels to themselves) and the data is untouched.  This holds
also when no label matches, because `df.rename` is then skipped
entirely. -/
theorem renameStage_eq (df : Table) :
    renameStage df = ⟨df.cols.map (fun c => (applyMapeamento c.1, c.2))⟩ := by
  by_cases h : colunas_para_renomear df = []
  · rw [renameStage, if_pos h]
    have h2 : ∀ x ∈ df.labels, (mapLookup x).map (fun w => (x, w)) = none :=
      List.filterMap_eq_nil_iff.mp h
    have hall : ∀ l ∈ df.labels, mapLookup l = none := fun l hl =>
      Option.map_eq_none'.mp (h2 l hl)
    cases df with
    | mk cols =>
      have hmap : ∀ c ∈ cols, (applyMapeamento c.1, c.2) = id c := by
        intro c hc
        have hn := hall c.1 (List.mem_map_of_mem Prod.fst hc)
        simp [applyMapeamento, hn]
      rw [Table.mk.injEq, List.map_congr_left hmap, List.map_id]
  · rw [renameStage, if_neg h, renameWith]
    rw [Table.mk.injEq]
    apply List.map_congr_left
    intro c hc
    have hmem : c.1 ∈ df.labels := List.mem_map_of_mem Prod.fst hc
    cases hx : mapLookup c.1 with
    | none =>
      rw [cpr_find_none df c.1 hx]
      simp [applyMapeamento, hx]
    | some v =>
      rw [cpr_find_some df c.1 v hx hmem]
      simp [applyMapeamento, hx]

/-- C6, confirmed.  The renamer maps every recognized synonym label to its
single canonical name and leaves every unrecognized label — with its
column data — unchanged; it is total, so a table with zero matching
labels goes through untouched. -/
theorem claim_C6 :
    (∀ df : Table, (renameStage df).labels = df.labels.map applyMapeamento ∧
      (renameStage df).cols.map Prod.snd = df.cols.map Prod.snd) ∧
    (∀ l v, mapLookup l = some v → applyMapeamento l = v) ∧
    (∀ l, mapLookup l = none → applyMapeamento l = l) := by
  refine ⟨fun df => ?_, fun l v h => by simp [applyMapeamento, h],
    fun l h => by simp [applyMapeamento, h]⟩
  rw [renameStage_eq]
  constructor
  · show (df.cols.map (fun c => (applyMapeamento c.1, c.2))).map Prod.fst = _
    rw [List.map_map, Table.labels, List.map_map]
    rfl
  · show (df.cols.map (fun c => (applyMapeamento c.1, c.2))).map Prod.snd = _
    rw [List.map_map]
    rfl

/-- Witness for C6: a recognized label is renamed, an unknown label
passes through, and a mixed two-column table keeps its data. -/
theorem claim_C6_witness :
    applyMapeamento "Receita Anual" = "receita_anual" ∧
    applyMapeamento "coluna_livre" = "coluna_livre" ∧
    (renameStage ⟨[("Receita Anual", [Value.num 7]), ("coluna_livre", [Value.other])]⟩).labels =
      ["receita_anual", "coluna_livre"] :=
  ⟨claim_C6.2.1 "Receita Anual" "receita_anual" rfl,
   claim_C6.2.2 "coluna_livre" rfl,
   by
    rw [(claim_C6.1 ⟨[("Receita Anual", [Value.num 7]), ("coluna_livre", [Value.other])]⟩).1]
    rfl⟩

theorem mapLookup_canonical_none (l v : String) (h : mapLookup l = some v) :
    mapLookup v = none := by
  obtain ⟨pr, hfind, hv⟩ := Option.map_eq_some'.mp h
  have hmem := List.mem_of_find?_eq_some hfind
  subst hv
  fin_cases hmem <;> decide

theorem applyMapeamento_idem (l : String) :
    applyMapeamento (applyMapeamento l) = applyMapeamento l := by
  cases h : mapLookup l with
  | none => simp [applyMapeamento, h]
  | some v => simp [applyMapeamento, h, mapLookup_canonical_none l v h]

/-- C7, confirmed.  Renaming is idempotent: canonical names are fixed
points of the rename map, so applying the renamer twice gives the same
table (hence the same canonical column names) as applying it once. -/
theorem claim_C7 (df : Table) : renameStage (renameStage df) = renameStage df := by
  rw [renameStage_eq df, renameStage_eq]
  rw [Table.mk.injEq, List.map_map]
  apply List.map_congr_left
  intro c _
  show (applyMapeamento (applyMapeamento c.1), c.2) = _
  rw [applyMapeamento_idem]

/-- C9, counterexample.  The claim says an invocation leaves the caller's
input table unchanged.  But when no column label needs renaming — here a
table already carrying the canonical label `receita_anual` — line 120's
`df.rename` is skipped, the local `df` keeps aliasing the caller's
object, and the derived-column writes mutate it in place: after the call
the input has grown a `porte` column. -/
theorem claim_C9_counterexample :
    inputAfterNormalizar 2025 ⟨[("receita_anual", [Value.num 5])]⟩ ≠
      Except.ok ⟨[("receita_anual", [Value.num 5])]⟩ := by decide

/-- C9, amended.  `normalizar_colunas` leaves the caller's input table
unchanged exactly when at least one column label is recognized by the
rename map — `df.rename` then produces a fresh table and all writes go to
the copy.  When no label matches, the derived columns are written into
the caller's table in place, mutating it. -/
theorem claim_C9_amended (anoAtual : ℚ) (df : Table)
    (h : ∃ l ∈ df.labels, (mapLookup l).isSome) :
    inputAfterNormalizar anoAtual df = Except.ok df := by
  have hne : colunas_para_renomear df ≠ [] := by
    obtain ⟨l, hl, hs⟩ := h
    intro hnil
    have h2 : ∀ x ∈ df.labels, (mapLookup x).map (fun w => (x, w)) = none :=
      List.filterMap_eq_nil_iff.mp hnil
    rw [Option.map_eq_none'.mp (h2 l hl)] at hs
    cases hs
  rw [inputAfterNormalizar, if_neg hne]

/-- Witness for C9's amended theorem: a table whose single label is the
recognized synonym "Receita Anual" comes back to the caller unchanged. -/
theorem claim_C9_witness :
    inputAfterNormalizar 2025 ⟨[("Receita Anual", [Value.num 5])]⟩ =
      Except.ok ⟨[("Receita Anual", [Value.num 5])]⟩ :=
  claim_C9_amended 2025 _ ⟨"Receita Anual", by decide, by decide⟩

/-- C8, confirmed.  `obter_codigo_pais` never raises, whatever the fuzzy
matcher does: when the matcher returns a nonempty relevance-ordered list
the alpha-3 code of the first match is returned; when it returns nothing
or raises (unresolvable name, non-string input), the missing sentinel
`None` comes back. -/
theorem claim_C8 (searchFuzzy : String → Except Unit (List Country)) (s : String) :
    (∀ p ps, searchFuzzy s = .ok (p :: ps) →
      obter_codigo_pais searchFuzzy (Value.str s) = some p.alpha_3) ∧
    (searchFuzzy s = .ok [] → obter_codigo_pais searchFuzzy (Value.str s) = none) ∧
    (searchFuzzy s = .error () → obter_codigo_pais searchFuzzy (Value.str s) = none) ∧
    (∀ v : Value, (∀ t, v ≠ Value.str t) → obter_codigo_pais searchFuzzy v = none) := by
  refine ⟨fun p ps h => ?_, fun h => ?_, fun h => ?_, fun v hv => ?_⟩
  · simp [obter_codigo_pais, h]
  · simp [obter_codigo_pais, h]
  · simp [obter_codigo_pais, h]
  · cases v with
    | str t => exact absurd rfl (hv t)
    | num q => rfl
    | pinf => rfl
    | ninf => rfl
    | nan => rfl
    | pyNone => rfl
    | other => rfl

/-- A concrete stand-in for `pycountry.countries.search_fuzzy`: resolves
the United States spellings and raises `LookupError` on anything else. -/
def fuzzyUSA (s : String) : Except Unit (List Country) :=
  if s = "United States" ∨ s = "USA" ∨ s = "U.S.A." then .ok [⟨"USA"⟩] else .error ()

/-- Witness for C8: "United States" resolves to "USA" and the
unresolvable "Atlantis" yields the missing sentinel, not an error. -/
theorem claim_C8_witness :
    obter_codigo_pais fuzzyUSA (Value.str "United States") = some "USA" ∧
    obter_codigo_pais fuzzyUSA (Value.str "Atlantis") = none :=
  ⟨(claim_C8 fuzzyUSA "United States").1 ⟨"USA"⟩ [] (by decide),
   (claim_C8 fuzzyUSA "Atlantis").2.2.1 (by decide)⟩

theorem replaceCol_find_ne (l l' : String) (vs : List Value) (h : l ≠ l') :
    ∀ cs : List (String × List Value),
      (replaceCol l vs cs).find? (fun c => c.1 == l') = cs.find? (fun c => c.1 == l')
  | [] => rfl
  | c :: cs => by
    rw [replaceCol]
    cases hc : (c.1 == l) with
    | true =>
      rw [if_pos rfl]
      rw [List.find?_cons, List.find?_cons]
      have h1 : ((l, vs).1 == l') = false := by simp [h]
      have h2 : (c.1 == l') = false := by
        have : c.1 = l := by simpa using hc
        simp [this, h]
      rw [h1, h2]
    | false =>
      rw [if_neg (by simp)]
      rw [List.find?_cons, List.find?_cons]
      cases hcl : (c.1 == l') with
      | true => rfl
      | false => exact replaceCol_find_ne l l' vs h cs

theorem setCol_getCol_ne (t : Table) (l l' : String) (vs : List Value) (h : l ≠ l') :
    (t.setCol l vs).getCol l' = t.getCol l' := by
  rw [Table.setCol]
  by_cases hs : (t.getCol l).isSome
  · rw [if_pos hs]
    show ((⟨replaceCol l vs t.cols⟩ : Table).cols.find? (fun c => c.1 == l')).map Prod.snd = _
    rw [replaceCol_find_ne l l' vs h t.cols]
    rfl
  · rw [if_neg hs]
    show ((t.cols ++ [(l, vs)]).find? (fun c => c.1 == l')).map Prod.snd = _
    rw [List.find?_append]
    have h2 : List.find? (fun c => c.1 == l') [(l, vs)] = none := by
      rw [List.find?_cons]
      have : ((l, vs).1 == l') = false := by simp [h]
      rw [this]
      rfl
    rw [h2, Option.or_none]
    rfl

theorem replaceCol_self (l : String) (vs : List Value) :
    ∀ cs : List (String × List Value),
      (cs.find? (fun c => c.1 == l)).map Prod.snd = some vs → replaceCol l vs cs = cs
  | [] => by intro h; cases h
  | c :: cs => by
    intro h
    rw [replaceCol]
    cases hc : (c.1 == l) with
    | true =>
      rw [if_pos rfl]
      rw [List.find?_cons, hc] at h
      have hval : c.2 = vs := by simpa using h
      have hlab : c.1 = l := by simpa using hc
      rw [← hval, ← hlab]
    | false =>
      rw [if_neg (by simp)]
      rw [List.find?_cons, hc] at h
      rw [replaceCol_self l vs cs h]

theorem setCol_self (t : Table) (l : String) (vs : List Value) (h : t.getCol l = some vs) :
    t.setCol l vs = t := by
  rw [Table.setCol, if_pos (by simp [h])]
  have h2 : (t.cols.find? (fun c => c.1 == l)).map Prod.snd = some vs := h
  rw [Table.mk.injEq]
  exact replaceCol_self l vs t.cols h2

theorem converter_numericLike (v : Value) (h : v.isNumericLike = true) :
    converter_para_float v = .ok v := by
  cases v <;> first | rfl | (cases h)

theorem mapM_converter_id (vs : List Value) (h : ∀ v ∈ vs, v.isNumericLike = true) :
    vs.mapM converter_para_float = .ok vs := by
  induction vs with
  | nil => rfl
  | cons x xs ih =>
    rw [List.mapM_cons, converter_numericLike x (h x (by simp)),
      ih (fun v hv => h v (by simp [hv]))]
    rfl

/-- Revenue coercion is the identity on a table whose revenue column (if
any) holds only numeric cells. -/
theorem coerceStage_id (df : Table)
    (h : ∀ v ∈ ((df.getCol "receita_anual").getD []), v.isNumericLike = true) :
    coerceStage df = .ok df := by
  rw [coerceStage]
  cases hg : df.getCol "receita_anual" with
  | none => rw [if_neg (by simp [hg])]
  | some vs =>
    rw [if_pos (by simp [hg])]
    have h2 : vs.mapM converter_para_float = .ok vs :=
      mapM_converter_id vs (by simpa [hg] using h)
    simp only [Option.getD_some, h2]
    rw [setCol_self df "receita_anual" vs hg]

theorem addReceita_getCol (df b : Table) (h : addReceitaPorFuncionario df = .ok b) :
    b.getCol "receita_anual" = df.getCol "receita_anual" := by
  rw [addReceitaPorFuncionario] at h
  split at h
  · split at h
    · injection h with h2
      rw [← h2]
      exact setCol_getCol_ne df "receita_por_funcionario" "receita_anual" _ (by decide)
    · cases h
  · injection h with h2
    rw [h2]

theorem addPorte_getCol (df b : Table) (h : addPorte df = .ok b) :
    b.getCol "receita_anual" = df.getCol "receita_anual" := by
  rw [addPorte] at h
  split at h
  · split at h
    · injection h with h2
      rw [← h2]
      exact setCol_getCol_ne df "porte" "receita_anual" _ (by decide)
    · cases h
  · injection h with h2
    rw [h2]

theorem addIdade_getCol (anoAtual : ℚ) (df b : Table)
    (h : addIdadeEmpresa anoAtual df = .ok b) :
    b.getCol "receita_anual" = df.getCol "receita_anual" := by
  rw [addIdadeEmpresa] at h
  split at h
  · split at h
    · injection h with h2
      rw [← h2]
      exact setCol_getCol_ne df "idade_empresa" "receita_anual" _ (by decide)
    · cases h
  · injection h with h2
    rw [h2]

theorem except_ok_bind {α β : Type} (a : α) (f : α → Except Unit β) :
    (Except.ok a >>= f) = f a := rfl

theorem except_error_bind {α β : Type} (e : Unit) (f : α → Except Unit β) :
    ((Except.error e : Except Unit α) >>= f) = Except.error e := rfl

theorem except_map_ok {α β : Type} (g : α → β) (a : α) :
    (g <$> (Except.ok a : Except Unit α)) = Except.ok (g a) := rfl

theorem except_map_error {α β : Type} (g : α → β) (e : Unit) :
    (g <$> (Except.error e : Except Unit α)) = (Except.error e : Except Unit β) := rfl

/-- C4, counterexample.  The claim says derived metrics are computed after
revenue coercion.  In the module pipeline, `normalizar_colunas` — which
computes the derived metrics — runs at line 162, BEFORE the coercion of
line 167.  On a table whose revenue arrives as the currency string
"R$ 1.234,56" (the very format the coercion exists for), the derivation
divides a string by a number and the whole pipeline raises, while the
spec-ordered pipeline (coerce first, then derive) succeeds and computes
the derived metrics from the coerced float 1234.56. -/
theorem claim_C4_counterexample :
    pipelineModule fuzzyUSA 2025 ⟨[("Receita Anual", [Value.str "R$ 1.234,56"]),
      ("Nº Funcionários", [Value.num 10])]⟩ = Except.error () ∧
    pipelineSpecOrder fuzzyUSA 2025 ⟨[("Receita Anual", [Value.str "R$ 1.234,56"]),
      ("Nº Funcionários", [Value.num 10])]⟩ =
      Except.ok ⟨[("receita_anual", [Value.num (mkRat 123456 100)]),
        ("numero_funcionarios", [Value.num 10]),
        ("receita_por_funcionario", [Value.num (mkRat 15432 125)]),
        ("porte", [Value.str "Micro"])]⟩ := by decide

/-- C4, amended.  Derived-metric computation runs after column renaming
(its prerequisites are canonical-named) but BEFORE revenue coercion.  On
any table whose renamed revenue column holds only numeric cells — so
coercion is the identity — the module order coincides with the
spec-claimed order, making the two pipelines agree; the orders differ
(module raises) exactly on string-revenue tables, as the counterexample
shows. -/
theorem claim_C4_amended (searchFuzzy : String → Except Unit (List Country))
    (anoAtual : ℚ) (df : Table)
    (h : ∀ v ∈ (((anoFundacaoStage (renameStage df)).getCol "receita_anual").getD []),
      v.isNumericLike = true) :
    pipelineModule searchFuzzy anoAtual df = pipelineSpecOrder searchFuzzy anoAtual df := by
  have hca : coerceStage (anoFundacaoStage (renameStage df)) =
      .ok (anoFundacaoStage (renameStage df)) :=
    coerceStage_id _ h
  rcases hA : addReceitaPorFuncionario (anoFundacaoStage (renameStage df)) with e | t1
  · simp [pipelineModule, pipelineSpecOrder, normalizar_colunas, hca, hA,
      except_ok_bind, except_error_bind, except_map_ok, except_map_error]
  · have h1 := addReceita_getCol _ t1 hA
    rcases hP : addPorte t1 with e | t2
    · simp [pipelineModule, pipelineSpecOrder, normalizar_colunas, hca, hA, hP,
        except_ok_bind, except_error_bind, except_map_ok, except_map_error]
    · have h2 := addPorte_getCol t1 t2 hP
      rcases hI : addIdadeEmpresa anoAtual t2 with e | t3
      · simp [pipelineModule, pipelineSpecOrder, normalizar_colunas, hca, hA, hP, hI,
          except_ok_bind, except_error_bind, except_map_ok, except_map_error]
      · have h3 := addIdade_getCol anoAtual t2 t3 hI
        have hcb : coerceStage t3 = .ok t3 := by
          apply coerceStage_id
          rw [h3, h2, h1]
          exact h
        simp [pipelineModule, pipelineSpecOrder, normalizar_colunas, hca, hA, hP, hI, hcb,
          except_ok_bind, except_error_bind, except_map_ok, except_map_error]

/-- Witness for C4's amended theorem: on numeric revenue the two orders
agree. -/
theorem claim_C4_witness :
    pipelineModule fuzzyUSA 2025 ⟨[("Receita Anual", [Value.num 50, Value.nan])]⟩ =
      pipelineSpecOrder fuzzyUSA 2025 ⟨[("Receita Anual", [Value.num 50, Value.nan])]⟩ :=
  claim_C4_amended fuzzyUSA 2025 _ (by decide)
